import Mathlib

/-!
Verification development for the PULSE backend ingestion/dispatch layer
(`backend/main.py`) and its structured debug-capture subsystem
(`backend/debug_logger.py`).

Modelling conventions:
* Python dicts whose values are JSON-serializable are modelled as association
  lists `List (String × JVal)` in insertion order (Python dicts preserve
  insertion order, and the dicts handled here have unique keys).
* Python floats are modelled as exact rationals `ℚ`; `round(x, n)` is modelled
  as round-half-to-even on the exact value (CPython's rounding mode).
* Filesystem activity of the debug logger is modelled as an explicit list of
  primitive filesystem operations (`FsOp`), in program order.  A file's
  content evolves through these operations: `open(path, "w")` truncates the
  file at its final path first, and the complete document is only present
  once `json.dump` / `f.write` has run to completion.
* Identifier-like values (session ids, segment ids) are assumed to be JSON
  strings, and numeric fields used in arithmetic are assumed to be JSON
  numbers, as everywhere in the source.
-/

/-- JSON values, as written by `json.dump` and read back by `json.loads`. -/
inductive JVal : Type where
  | null : JVal
  | bool : Bool → JVal
  | num : ℚ → JVal
  | str : String → JVal
  | arr : List JVal → JVal
  | obj : List (String × JVal) → JVal

/-- A JSON object / Python dict, as an insertion-ordered association list. -/
abbrev Doc : Type := List (String × JVal)

/-- `d.get(k)`: first binding of `k`, if any (dict keys are unique). -/
def pyGet (d : Doc) (k : String) : Option JVal :=
  (d.find? (fun kv => kv.1 == k)).map (fun kv => kv.2)

/-- `d.get(k)` where an absent key serializes as JSON `null` (Python `None`). -/
def pyGetD (d : Doc) (k : String) : JVal :=
  (pyGet d k).getD JVal.null

/-- `d.get(k, [])` for a list-valued field. -/
def pyGetList (d : Doc) (k : String) : List JVal :=
  match pyGet d k with
  | some (JVal.arr xs) => xs
  | _ => []

/-- `d.get(k, default)` for a string-valued field (ids are strings). -/
def pyGetStr (d : Doc) (k : String) (default : String) : String :=
  match pyGet d k with
  | some (JVal.str s) => s
  | _ => default

/-- `d.get(k, 0)` for a numeric field. -/
def pyGetNum (d : Doc) (k : String) : ℚ :=
  match pyGet d k with
  | some (JVal.num q) => q
  | _ => 0

/-- Primitive filesystem operations performed by `DebugLogger`, in program
order.  `rename` is in the vocabulary so that "the write never renames a
temporary file into place" is expressible; the source never emits it. -/
inductive FsOp : Type where
  | mkdirs : String → FsOp
  | openTrunc : String → FsOp
  | writeDoc : String → JVal → FsOp
  | writeTxt : String → String → FsOp
  | writeJpeg : String → FsOp
  | closeFile : String → FsOp
  | rename : String → String → FsOp

/-- Observable content of one file path between filesystem operations. -/
inductive FileData : Type where
  | truncated : FileData
  | jsonDoc : JVal → FileData
  | textDoc : String → FileData

/-- Effect of one filesystem operation on the store (path ↦ content view).
`openTrunc` makes the file present but empty; the complete document appears
only when the dump/write finishes. -/
def applyOp (fs : String → Option FileData) : FsOp → (String → Option FileData)
  | FsOp.mkdirs _ => fs
  | FsOp.openTrunc p => fun q => if q = p then some FileData.truncated else fs q
  | FsOp.writeDoc p d => fun q => if q = p then some (FileData.jsonDoc d) else fs q
  | FsOp.writeTxt p s => fun q => if q = p then some (FileData.textDoc s) else fs q
  | FsOp.writeJpeg _ => fs
  | FsOp.closeFile _ => fs
  | FsOp.rename src dst => fun q =>
      if q = dst then fs src else if q = src then none else fs q

/-- Filesystem state after executing a prefix of operations on an empty store. -/
def fsAfter (evs : List FsOp) : String → Option FileData :=
  evs.foldl applyOp (fun _ => none)

/-- Runs a capture operation's filesystem actions over a filesystem in which
some primitive operations fail by raising (`fails op = true`).  `DebugLogger`
contains no `try`/`except`, so the first failing primitive aborts the
operation and the exception propagates to the caller; this executor embeds
exactly that propagation. -/
def runOps (fails : FsOp → Bool) : List FsOp → Except FsOp (List FsOp)
  | [] => Except.ok []
  | op :: rest =>
    if fails op then Except.error op
    else (runOps fails rest).map (fun l => op :: l)

/-- Failure model in which opening the artifact file raises (e.g. `OSError`
from a full disk or a permission error). -/
def failsOpen : FsOp → Bool
  | FsOp.openTrunc _ => true
  | _ => false

/-- `f"{i:03d}"`: zero-padded frame index used in frame filenames. -/
def pad3 (n : Nat) : String :=
  if n < 10 then ("00") ++ toString n
  else if n < 100 then ("0") ++ toString n
  else toString n

/-- A PIL image as used by `log_vlm_input` (only its dimensions are read). -/
structure PILImg : Type where
  width : Nat
  height : Nat

/-- `backend/debug_logger.py`, `DEBUG_ROOT` relative to the project root. -/
def DEBUG_ROOT : String := "output/debug"

/-- `DebugLogger(session_id, enabled)`: the two fields set by `__init__`. -/
structure DebugLogger : Type where
  session_id : String
  enabled : Bool

/-- `self.session_dir = os.path.join(DEBUG_ROOT, session_id)`. -/
def DebugLogger.session_dir (L : DebugLogger) : String :=
  DEBUG_ROOT ++ "/" ++ L.session_id

/-- Filesystem operations performed by `DebugLogger.__init__`: the session
directory is created only when capture is enabled. -/
def DebugLogger.initEvents (L : DebugLogger) : List FsOp :=
  if L.enabled = false then [] else [FsOp.mkdirs L.session_dir]

/-- Path of the per-segment directory (`_seg_dir`). -/
def DebugLogger.segDirPath (L : DebugLogger) (segment_id : String) : String :=
  L.session_dir ++ "/" ++ segment_id

/-- Filesystem operations of `_seg_dir`: idempotent lazy directory creation. -/
def DebugLogger.segDirEvents (L : DebugLogger) (segment_id : String) : List FsOp :=
  [FsOp.mkdirs (L.segDirPath segment_id)]

/-- Filesystem operations of `_write_json`: the file is opened for writing at
its final path (truncating it) and the document is dumped into it directly —
there is no temporary file and no rename. -/
def writeJsonEvents (path : String) (data : JVal) : List FsOp :=
  [FsOp.openTrunc path, FsOp.writeDoc path data, FsOp.closeFile path]

/-- The stats dict built by `log_raw_segment` from the raw segment dict. -/
def rawSegmentStats (segment : Doc) (seg_id : String) : Doc :=
  let stats0 : Doc :=
    [("segment_id", JVal.str seg_id),
     ("timestamp", pyGetD segment ("timestamp")),
     ("gps_midpoint", pyGetD segment ("gps")),
     ("avg_speed_kmh", pyGetD segment ("avg_speed_kmh")),
     ("avg_speed_ms", pyGetD segment ("avg_speed_ms")),
     ("length_km", pyGetD segment ("length_km")),
     ("imu_readings_count", JVal.num ((pyGetList segment ("imu_buffer")).length : ℚ)),
     ("frames_count", JVal.num ((pyGetList segment ("frames")).length : ℚ)),
     ("gps_points_count", JVal.num ((pyGetList segment ("gps_buffer")).length : ℚ)),
     ("audio_packets_count", JVal.num ((pyGetList segment ("audio_buffer")).length : ℚ))]
  let imu_buf := pyGetList segment ("imu_buffer")
  let stats1 :=
    if imu_buf.isEmpty then stats0
    else stats0 ++
      [("imu_sample_first_5", JVal.arr (imu_buf.take 5)),
       ("imu_sample_last_5", JVal.arr (imu_buf.drop (imu_buf.length - 5)))]
  let gps_buf := pyGetList segment ("gps_buffer")
  if gps_buf.isEmpty then stats1
  else stats1 ++
    [("gps_sample_first_3", JVal.arr (gps_buf.take 3)),
     ("gps_sample_last_3", JVal.arr (gps_buf.drop (gps_buf.length - 3)))]

/-- `log_raw_segment(segment)`: statistics about the raw data, written to
`raw_sensor_stats.json`; a no-op when capture is disabled. -/
def DebugLogger.log_raw_segment (L : DebugLogger) (segment : Doc) : List FsOp :=
  if L.enabled = false then []
  else
    let seg_id := pyGetStr segment ("segment_id") ("unknown")
    let d := L.segDirPath seg_id
    L.segDirEvents seg_id ++
      writeJsonEvents (d ++ "/raw_sensor_stats.json") (JVal.obj (rawSegmentStats segment seg_id))

/-- `log_frames(segment_id, frames)`: saves the captured camera frames; a
no-op when capture is disabled or the frame list is empty. -/
def DebugLogger.log_frames (L : DebugLogger) (segment_id : String)
    (frames : List (Option JVal)) : List FsOp :=
  if L.enabled = false then []
  else if frames.isEmpty then []
  else
    let d := L.segDirPath segment_id
    let frames_dir := d ++ "/captured_frames"
    L.segDirEvents segment_id ++ [FsOp.mkdirs frames_dir] ++
      frames.enum.filterMap (fun p =>
        match p.2 with
        | some _ => some (FsOp.writeJpeg (frames_dir ++ "/frame_" ++ pad3 p.1 ++ ".jpg"))
        | none => none)

/-- `log_vlm_input(segment_id, pil_frames, prompt, system_prompt)`: saves the
exact images and prompt sent to the vision model. -/
def DebugLogger.log_vlm_input (L : DebugLogger) (segment_id : String)
    (pil_frames : List PILImg) (prompt : String) (system_prompt : String) : List FsOp :=
  if L.enabled = false then []
  else
    let d := L.segDirPath segment_id
    let vlm_dir := d ++ "/vlm_input_frames"
    L.segDirEvents segment_id ++ [FsOp.mkdirs vlm_dir] ++
      pil_frames.enum.map (fun p =>
        FsOp.writeJpeg (vlm_dir ++ "/vlm_frame_" ++ pad3 p.1 ++ ".jpg")) ++
      writeJsonEvents (d ++ "/vlm_prompt.json")
        (JVal.obj
          [("system_prompt", JVal.str system_prompt),
           ("assessment_prompt", JVal.str prompt),
           ("num_images_sent", JVal.num (pil_frames.length : ℚ)),
           ("image_sizes", JVal.arr (pil_frames.map (fun img =>
              JVal.str (toString img.width ++ "x" ++ toString img.height))))])

/-- Is this optional JSON value the string `s`?  (Python `v == s` where a
non-string compares unequal.) -/
def optIsStr (o : Option JVal) (s : String) : Bool :=
  match o with
  | some (JVal.str t) => t == s
  | _ => false

/-- `"error" not in parsed_result or parsed_result.get("error") != "parse_failed"`:
the parse-success flag written by `log_vlm_output`. -/
def vlmParseSuccess (parsed_result : Doc) : Bool :=
  (pyGet parsed_result ("error")).isNone ||
    !(optIsStr (pyGet parsed_result ("error")) ("parse_failed"))

/-- `log_vlm_output(segment_id, raw_response, parsed_result, inference_time_s)`:
writes the raw model response text verbatim to `vlm_raw_response.txt` and the
parse result, tagged with `parse_success`, to `vlm_parsed.json`. -/
def DebugLogger.log_vlm_output (L : DebugLogger) (segment_id : String)
    (raw_response : String) (parsed_result : Doc) (inference_time_s : ℚ) : List FsOp :=
  if L.enabled = false then []
  else
    let d := L.segDirPath segment_id
    let rawPath := d ++ "/vlm_raw_response.txt"
    L.segDirEvents segment_id ++
      [FsOp.openTrunc rawPath, FsOp.writeTxt rawPath raw_response, FsOp.closeFile rawPath] ++
      writeJsonEvents (d ++ "/vlm_parsed.json")
        (JVal.obj
          [("inference_time_s", JVal.num inference_time_s),
           ("parse_success", JVal.bool (vlmParseSuccess parsed_result)),
           ("parsed_result", JVal.obj parsed_result)])

/-- `log_stage(segment_id, stage_name, result)`: generic per-stage capture,
written to `<stage_name>.json`. -/
def DebugLogger.log_stage (L : DebugLogger) (segment_id : String)
    (stage_name : String) (result : Doc) : List FsOp :=
  if L.enabled = false then []
  else
    let d := L.segDirPath segment_id
    L.segDirEvents segment_id ++
      writeJsonEvents (d ++ "/" ++ stage_name ++ ".json") (JVal.obj result)

/-- `{k: v for k, v in result.items() if k != "frames"}`: the payload written
by `log_final_result`. -/
def finalResultClean (result : Doc) : Doc :=
  result.filter (fun kv => kv.1 != ("frames"))

/-- `log_final_result(segment_id, result)`: writes the final merged pipeline
result, with the heavy `"frames"` entry removed, to `pipeline_result.json`. -/
def DebugLogger.log_final_result (L : DebugLogger) (segment_id : String)
    (result : Doc) : List FsOp :=
  if L.enabled = false then []
  else
    let d := L.segDirPath segment_id
    L.segDirEvents segment_id ++
      writeJsonEvents (d ++ "/pipeline_result.json") (JVal.obj (finalResultClean result))

/-- Round the fraction `n / d` (for `d > 0`, not necessarily reduced) to the
nearest integer, ties to even — CPython `round` semantics on the exact value.
`f` is the floor of the fraction and `r2` is twice the remainder, compared
against `d` to decide between `f`, `f + 1`, and the ties-to-even case. -/
def roundAtInt (n d : ℤ) : ℤ :=
  let f := Int.fdiv n d
  let r2 := 2 * (n - f * d)
  if r2 < d then f
  else if d < r2 then f + 1
  else if f % 2 = 0 then f
  else f + 1

/-- Python `round(q, ndigits)` modelled on exact rationals:
round-half-to-even at `ndigits` decimal places. -/
def pyRound (ndigits : Nat) (q : ℚ) : ℚ :=
  (roundAtInt (q.num * (10 : ℤ) ^ ndigits) (q.den : ℤ) : ℚ) / ((10 : ℚ) ^ ndigits)

/-- One `pipeline_result.json` file found by scanning the Artifact Store:
its session directory name, segment directory name, and the result of
parsing its content (`none` when `json.loads` fails). -/
structure ArtifactFile : Type where
  sessionDir : String
  segDir : String
  parsed : Option Doc

/-- `_load_all_session_results()`: every parseable `pipeline_result.json`
in scan order; files that fail to parse are skipped, not fatal.  The model
takes the (sorted) directory scan as input. -/
def load_all_session_results (store : List ArtifactFile) : List Doc :=
  store.filterMap (fun f => f.parsed)

/-- `s.get("iri", {}).get("iri_value")` when present, non-null and numeric. -/
def docIriValue (s : Doc) : Option ℚ :=
  match pyGet s ("iri") with
  | some (JVal.obj kvs) =>
    match pyGet kvs ("iri_value") with
    | some (JVal.num q) => some q
    | _ => none
  | _ => none

/-- `s.get("pci_estimate")` when present, non-null and numeric. -/
def docPciValue (s : Doc) : Option ℚ :=
  match pyGet s ("pci_estimate") with
  | some (JVal.num q) => some q
  | _ => none

/-- `s.get("length_km", 0)`. -/
def docLengthKm (s : Doc) : ℚ := pyGetNum s ("length_km")

/-- `s.get("session_id")` as used by `get_global_stats` (set membership):
`none` models both an absent key and a null value. -/
def docSessionIdOpt (s : Doc) : Option String :=
  match pyGet s ("session_id") with
  | some (JVal.str x) => some x
  | _ => none

/-- `seg.get("session_id", "unknown")` as used by `list_sessions` grouping. -/
def docSessionIdD (s : Doc) : String := pyGetStr s ("session_id") ("unknown")

/-- The `SessionSummary` dict built by `_session_summary_from_segments`. -/
structure SessionSummary : Type where
  session_id : String
  status : String
  segment_count : Nat
  avg_iri : Option ℚ
  avg_pci : Option ℚ
  total_distance_km : ℚ

/-- `_session_summary_from_segments(session_id, segs)`: averages are taken
over exactly the segments carrying a non-null value, and are `None` (never a
computed zero) when no segment carries the value. -/
def session_summary_from_segments (session_id : String) (segs : List Doc) : SessionSummary :=
  let iri_values := segs.filterMap docIriValue
  let pci_values := segs.filterMap docPciValue
  let total_km := (segs.map docLengthKm).sum
  { session_id := session_id
    status := ("completed")
    segment_count := segs.length
    avg_iri :=
      if iri_values.isEmpty then none
      else some (pyRound 2 (iri_values.sum / (iri_values.length : ℚ)))
    avg_pci :=
      if pci_values.isEmpty then none
      else some (pyRound 1 (pci_values.sum / (pci_values.length : ℚ)))
    total_distance_km := pyRound 4 total_km }

/-- `session_map.setdefault(sid, []).append(seg)` over all loaded segment
docs: groups by session id in first-seen order. -/
def groupBySession (segs : List Doc) : List (String × List Doc) :=
  segs.foldl (fun m seg =>
    let sid := docSessionIdD seg
    if m.any (fun e => e.1 = sid) then
      m.map (fun e => if e.1 = sid then (e.1, e.2 ++ [seg]) else e)
    else m ++ [(sid, [seg])]) []

/-- Code-point-lexicographic order on character lists: how Python compares
strings when sorting session ids. -/
def strLeData : List Char → List Char → Bool
  | [], _ => true
  | _ :: _, [] => false
  | a :: as, b :: bs =>
    if a.toNat < b.toNat then true
    else if b.toNat < a.toNat then false
    else strLeData as bs

/-- Python string comparison `a <= b` (code-point lexicographic). -/
def strLe (a b : String) : Bool := strLeData a.data b.data

/-- Insert one grouped entry into a key-sorted list of grouped entries. -/
def insertByKey (x : String × List Doc) : List (String × List Doc) → List (String × List Doc)
  | [] => [x]
  | y :: ys => if strLe x.1 y.1 then x :: y :: ys else y :: insertByKey x ys

/-- `sorted(session_map.items())`: items sorted by session id (group keys
are unique, so any sort by key yields the same list). -/
def sortByKey (m : List (String × List Doc)) : List (String × List Doc) :=
  m.foldr insertByKey []

/-- An entry of `active_sessions` as read by the aggregation endpoints: its
session id and the fields of `pipeline.get_session_summary()` they consume
(the pipeline is an external collaborator). -/
structure ActiveSession : Type where
  session_id : String
  summary_avg_iri : Option ℚ
  summary_segments_processed : Nat
  summary_total_length_km : ℚ

/-- `list_sessions()` (`GET /api/sessions`): historical sessions grouped from
on-disk artifacts, plus any active session not yet represented on disk. -/
def list_sessions (store : List ArtifactFile) (active : List ActiveSession) : List SessionSummary :=
  let all_segments := load_all_session_results store
  let session_map := sortByKey (groupBySession all_segments)
  let sessions := session_map.map (fun e => session_summary_from_segments e.1 e.2)
  let file_ids := sessions.map (fun s => s.session_id)
  let extra := active.filter (fun a => ¬ (a.session_id ∈ file_ids))
  sessions ++ extra.map (fun a =>
    { session_id := a.session_id
      status := ("active")
      segment_count := a.summary_segments_processed
      avg_iri := a.summary_avg_iri
      avg_pci := none
      total_distance_km := a.summary_total_length_km })

/-- The dict returned by `get_global_stats`. -/
structure GlobalStats : Type where
  total_sessions : Nat
  total_segments : Nat
  total_distance_km : ℚ
  avg_iri : Option ℚ
  avg_pci : Option ℚ
  distress_count : Nat

/-- `get_global_stats()` (`GET /api/stats`): aggregate statistics over all
on-disk segment results; `total_sessions` adds the number of distinct on-disk
session ids and the number of active sessions. -/
def get_global_stats (store : List ArtifactFile) (active : List ActiveSession) : GlobalStats :=
  let all_segments := load_all_session_results store
  let session_ids := (all_segments.map docSessionIdOpt).dedup
  let iri_values := all_segments.filterMap docIriValue
  let pci_values := all_segments.filterMap docPciValue
  let total_km := (all_segments.map docLengthKm).sum
  { total_sessions := session_ids.length + active.length
    total_segments := all_segments.length
    total_distance_km := pyRound 4 total_km
    avg_iri :=
      if iri_values.isEmpty then none
      else some (pyRound 2 (iri_values.sum / (iri_values.length : ℚ)))
    avg_pci :=
      if pci_values.isEmpty then none
      else some (pyRound 1 (pci_values.sum / (pci_values.length : ℚ)))
    distress_count := (all_segments.map (fun s => (pyGetList s ("distresses")).length)).sum }

/-- An inbound packet: an opaque structured dict with at least a `type`
discriminator and a `data` payload. -/
abbrev Packet : Type := List (String × JVal)

/-- `packet.get("type", "")`. -/
def packetType (p : Packet) : String := pyGetStr p ("type") ("")

/-- `packet.get("data", {})`. -/
def packetData (p : Packet) : Doc :=
  match pyGet p ("data") with
  | some (JVal.obj kvs) => kvs
  | _ => []

/-- Modelled from the spec: a ready Segment as produced by the external
`SegmentManager` (`backend/segment_manager.py` is not part of the given
sources).  The grouping algorithm is out of scope; what matters here is that
a segment is built from the packets buffered for it. -/
structure Segment : Type where
  packets : List Packet

/-- Modelled from the spec: the state of the external `SegmentManager` — a
buffer of not-yet-grouped packets and a queue of ready segments. -/
structure Assembler : Type where
  buf : List Packet
  ready : List Segment

/-- A grouping policy: from the current buffer (with the newest packet
appended), the remaining buffer and zero or more newly ready segments.  The
distance-based grouping algorithm is external, so theorems quantify over it. -/
abbrev GroupPolicy : Type := List Packet → List Packet × List Segment

/-- Modelled from the spec: `SegmentManager.ingest_packet(packet)` — append
the packet and let the grouping policy move completed groups to the ready
queue. -/
def Assembler.ingest (policy : GroupPolicy) (a : Assembler) (p : Packet) : Assembler :=
  let r := policy (a.buf ++ [p])
  { buf := r.1, ready := a.ready ++ r.2 }

/-- Modelled from the spec: `SegmentManager.get_ready_segments()` — return
and drain the ready queue. -/
def Assembler.drain (a : Assembler) : List Segment × Assembler :=
  (a.ready, { buf := a.buf, ready := [] })

/-- Modelled from the spec: `SegmentManager.flush()` — force-emit the
buffered trailing data as one final (possibly short) segment if and only if
the buffer is non-empty. -/
def Assembler.flush (a : Assembler) : Assembler :=
  if a.buf.isEmpty then a
  else { buf := [], ready := a.ready ++ [Segment.mk a.buf] }

/-- The mutable per-session entry of `active_sessions` that the ingestion
loop updates: last-known GPS fix and speed (the manager/pipeline handles are
the external collaborators). -/
structure LiveState : Type where
  current_gps : Option (JVal × JVal)
  current_speed_kmh : ℚ

/-- `active_sessions[sid] = state`: dict assignment (overwrite in place or
append a new key). -/
def regSet (reg : List (String × LiveState)) (sid : String) (st : LiveState) :
    List (String × LiveState) :=
  if reg.any (fun e => e.1 = sid) then
    reg.map (fun e => if e.1 = sid then (sid, st) else e)
  else reg ++ [(sid, st)]

/-- `active_sessions.pop(sid, None)`: remove the entry if present. -/
def regPop (reg : List (String × LiveState)) (sid : String) : List (String × LiveState) :=
  reg.filter (fun e => e.1 ≠ sid)

/-- Update one registry entry in place. -/
def regUpdate (reg : List (String × LiveState)) (sid : String)
    (f : LiveState → LiveState) : List (String × LiveState) :=
  reg.map (fun e => if e.1 = sid then (e.1, f e.2) else e)

/-- Live-telemetry update performed for each packet: positional (`gps`)
packets set the session's current GPS fix and speed (`round(speed*3.6, 1)`);
other packet types leave the registry unchanged. -/
def telemetryUpdate (reg : List (String × LiveState)) (sid : String) (p : Packet) :
    List (String × LiveState) :=
  if packetType p = ("gps") then
    let pdata := packetData p
    let lat := (pyGet pdata ("lat")).getD (JVal.num 0)
    let lng := (pyGet pdata ("lng")).getD (JVal.num 0)
    let speed_ms := pyGetNum pdata ("speed")
    regUpdate reg sid (fun _ =>
      { current_gps := some (lat, lng)
        current_speed_kmh := pyRound 1 (speed_ms * (36 / 10)) })
  else reg

/-- One outcome of `await websocket.receive_json()`: a decoded packet, a
`WebSocketDisconnect`, or any other exception (e.g. a malformed packet that
fails JSON decoding). -/
inductive RecvEvent : Type where
  | packet : Packet → RecvEvent
  | disconnect : RecvEvent
  | decodeError : String → RecvEvent

/-- Externally observable actions of one `websocket_endpoint` run: spawning a
detached Segment Task for a ready segment, and calling `pipeline.finalise()`. -/
inductive TraceEv : Type where
  | spawnTask : Segment → TraceEv
  | finaliseCalled : TraceEv

/-- How the `while True` receive loop ended. -/
inductive LoopEnd : Type where
  | pending : LoopEnd
  | disconnected : LoopEnd
  | raised : String → LoopEnd
deriving DecidableEq

/-- Result of running the receive loop over a script of receive outcomes. -/
structure LoopResult : Type where
  trace : List TraceEv
  assembler : Assembler
  registry : List (String × LiveState)
  outcome : LoopEnd

/-- The body of `websocket_endpoint`'s `while True` loop: receive a packet,
forward it to the assembler, update live telemetry, then spawn a detached
Segment Task for every segment the assembler reports ready.  A `pending`
outcome means the script ended with the loop still waiting for a packet. -/
def runLoop (policy : GroupPolicy) (sid : String) (a : Assembler)
    (reg : List (String × LiveState)) : List RecvEvent → LoopResult
  | [] => { trace := [], assembler := a, registry := reg, outcome := LoopEnd.pending }
  | RecvEvent.disconnect :: _ =>
      { trace := [], assembler := a, registry := reg, outcome := LoopEnd.disconnected }
  | RecvEvent.decodeError m :: _ =>
      { trace := [], assembler := a, registry := reg, outcome := LoopEnd.raised m }
  | RecvEvent.packet p :: rest =>
      let a1 := Assembler.ingest policy a p
      let reg1 := telemetryUpdate reg sid p
      let r := a1.drain
      let R := runLoop policy sid r.2 reg1 rest
      { trace := r.1.map TraceEv.spawnTask ++ R.trace
        assembler := R.assembler
        registry := R.registry
        outcome := R.outcome }

/-- The receive loop as entered by `websocket_endpoint`: fresh assembler,
session registered with empty telemetry. -/
def endpointLoop (policy : GroupPolicy) (sid : String)
    (reg0 : List (String × LiveState)) (script : List RecvEvent) : LoopResult :=
  runLoop policy sid (Assembler.mk [] []) (regSet reg0 sid (LiveState.mk none 0)) script

/-- Result of one `websocket_endpoint` run: its action trace, the registry
after it returns, and whether the handler terminated (a `pending` script
leaves it still running, before any teardown). -/
structure SessionRun : Type where
  trace : List TraceEv
  registryAfter : List (String × LiveState)
  terminated : Bool

/-- `websocket_endpoint(websocket, session_id)`: register the session, run
the receive loop; on `WebSocketDisconnect` flush the assembler and spawn a
task per remaining ready segment; in all terminating cases the `finally`
block calls `pipeline.finalise()` and pops the session entry. -/
def websocket_endpoint (policy : GroupPolicy) (sid : String)
    (reg0 : List (String × LiveState)) (script : List RecvEvent) : SessionRun :=
  let R := endpointLoop policy sid reg0 script
  match R.outcome with
  | LoopEnd.pending =>
      { trace := R.trace, registryAfter := R.registry, terminated := false }
  | LoopEnd.raised _ =>
      { trace := R.trace ++ [TraceEv.finaliseCalled]
        registryAfter := regPop R.registry sid
        terminated := true }
  | LoopEnd.disconnected =>
      let r := R.assembler.flush.drain
      { trace := R.trace ++ r.1.map TraceEv.spawnTask ++ [TraceEv.finaliseCalled]
        registryAfter := regPop R.registry sid
        terminated := true }

/-- Connection state as read from `websocket.client_state.name`. -/
inductive ClientState : Type where
  | connected : ClientState
  | disconnected : ClientState
deriving DecidableEq

/-- Environment of one `process_and_notify` run: the pipeline call's outcome,
the connection state at each `client_state` check, and whether each
`send_json` call raises.  A send either delivers its message and returns, or
raises without delivering. -/
structure TaskEnv : Type where
  pipeOutcome : Except String JVal
  stateAtResultSend : ClientState
  resultSendRaises : Bool
  resultSendErrText : String
  stateAtErrorSend : ClientState
  errorSendRaises : Bool

/-- A tagged server→client message. -/
inductive OutMsg : Type where
  | segment_result : JVal → OutMsg
  | error_message : String → OutMsg

/-- The `except Exception` branch of `process_and_notify`: send a tagged
error message if the connection is still open and the send succeeds. -/
def sendErrorBranch (env : TaskEnv) (msg : String) : List OutMsg :=
  if env.stateAtErrorSend = ClientState.connected then
    if env.errorSendRaises then [] else [OutMsg.error_message msg]
  else []

/-- `process_and_notify(websocket, pipeline, segment)`: the messages actually
delivered over the connection for one segment.  A raising result-send falls
into the same `except` block as a pipeline failure. -/
def process_and_notify (env : TaskEnv) : List OutMsg :=
  match env.pipeOutcome with
  | Except.ok result =>
      if env.stateAtResultSend = ClientState.connected then
        if env.resultSendRaises then sendErrorBranch env env.resultSendErrText
        else [OutMsg.segment_result result]
      else []
  | Except.error e => sendErrorBranch env e

/-- The concrete Debug Capture call used as failing input for the write
contract: `DebugLogger("s1").log_stage("seg_000", "iri_result", {})`. -/
def c1Events : List FsOp :=
  (DebugLogger.mk ("s1") true).log_stage ("seg_000") ("iri_result") []

/-- On-disk artifact path of that call. -/
def c1Path : String := "output/debug/s1/seg_000/iri_result.json"

/-- A hand-constructed final-result document with a given session id and
roughness (IRI) value. -/
def demoDoc (sid : String) (iri : ℚ) : Doc :=
  [("session_id", JVal.str sid),
   ("iri", JVal.obj [("iri_value", JVal.num iri)]),
   ("pci_estimate", JVal.null),
   ("length_km", JVal.num (1 / 10))]

/-- Artifact Store with 2 sessions of 3 segments: roughness values
`[1.0, 2.0, 3.0]` for `s1` and `[4.0, 5.0, 6.0]` for `s2`. -/
def demoStore : List ArtifactFile :=
  [ArtifactFile.mk ("s1") ("seg_000") (some (demoDoc ("s1") 1)),
   ArtifactFile.mk ("s1") ("seg_001") (some (demoDoc ("s1") 2)),
   ArtifactFile.mk ("s1") ("seg_002") (some (demoDoc ("s1") 3)),
   ArtifactFile.mk ("s2") ("seg_000") (some (demoDoc ("s2") 4)),
   ArtifactFile.mk ("s2") ("seg_001") (some (demoDoc ("s2") 5)),
   ArtifactFile.mk ("s2") ("seg_002") (some (demoDoc ("s2") 6))]

/-- Artifact Store holding one completed segment of session `s1`. -/
def storeS1 : List ArtifactFile :=
  [ArtifactFile.mk ("s1") ("seg_000") (some (demoDoc ("s1") 1))]

/-- Session `s1` still open in the Session Registry while its artifacts are
already on disk. -/
def activeS1 : ActiveSession := ActiveSession.mk ("s1") none 0 0

/-- A concrete grouping policy for witnesses: a segment becomes ready once
two packets are buffered. -/
def demoPolicy : GroupPolicy := fun buf =>
  if 2 ≤ buf.length then ([], [Segment.mk buf]) else (buf, [])

/-- A concrete non-positional packet. -/
def demoPacket : Packet := [("type", JVal.str ("imu")), ("data", JVal.obj [])]

/-- A drive shorter than one full segment: one packet, then disconnect. -/
def demoScript : List RecvEvent := [RecvEvent.packet demoPacket, RecvEvent.disconnect]

/-- A session whose first receive raises a JSON decode error. -/
def badScript : List RecvEvent := [RecvEvent.decodeError ("malformed packet")]

theorem roundAtInt_exact (z d : ℤ) (hd : 0 < d) : roundAtInt (z * d) d = z := by
  unfold roundAtInt
  have hf : Int.fdiv (z * d) d = z := Int.mul_fdiv_cancel z (ne_of_gt hd)
  simp only [hf]
  have h0 : 2 * (z * d - z * d) = 0 := by ring
  rw [h0]
  simp [hd]

theorem pyRound_exact (nd : Nat) (q : ℚ) (z : ℤ) (h : q * (10 : ℚ) ^ nd = (z : ℚ)) :
    pyRound nd q = q := by
  have hdenN : 0 < q.den := q.pos
  have hden : (0 : ℤ) < (q.den : ℤ) := by exact_mod_cast hdenN
  have hd0 : ((q.den : ℚ)) ≠ 0 := by
    exact_mod_cast hdenN.ne'
  have h2 : (q.num : ℚ) * (10 : ℚ) ^ nd = (z : ℚ) * (q.den : ℚ) := by
    have hq : q = (q.num : ℚ) / (q.den : ℚ) := (Rat.num_div_den q).symm
    rw [hq] at h
    field_simp at h
    linear_combination h
  have hnum : q.num * (10 : ℤ) ^ nd = z * (q.den : ℤ) := by exact_mod_cast h2
  unfold pyRound
  rw [hnum, roundAtInt_exact z _ hden]
  rw [div_eq_iff (by positivity)]
  exact h.symm

/-- Claim C1 (counter-evidence): the Debug Capture JSON write is not
all-or-nothing.  For the concrete capture call
`DebugLogger("s1").log_stage("seg_000", "iri_result", {})`, the operation
opens the artifact file for writing at its final path (no temporary
location), performs no rename, and between the truncating open and the
completed dump a concurrent reader of that path observes a present but
incomplete (truncated) file rather than "no file or complete JSON". -/
theorem c1_json_write_not_atomic :
    (∀ src dst, FsOp.rename src dst ∉ c1Events) ∧
    FsOp.openTrunc c1Path ∈ c1Events ∧
    fsAfter (c1Events.take 2) c1Path = some FileData.truncated ∧
    fsAfter c1Events c1Path = some (FileData.jsonDoc (JVal.obj [])) := by
  have e : c1Events =
      [FsOp.mkdirs ("output/debug/s1/seg_000"), FsOp.openTrunc c1Path,
       FsOp.writeDoc c1Path (JVal.obj []), FsOp.closeFile c1Path] := rfl
  refine ⟨?_, ?_, rfl, rfl⟩
  · intro src dst hmem
    rw [e] at hmem
    simp at hmem
  · rw [e]
    simp

/-- Claim C2: for every run of a Segment Task (`process_and_notify`) on one
segment, at most one outcome message is delivered over the connection —
exactly one of a tagged segment-result message, a tagged error message, or
no message — never both and never two. -/
theorem c2_at_most_one_outcome_message (env : TaskEnv) :
    process_and_notify env = [] ∨
    (∃ d, process_and_notify env = [OutMsg.segment_result d]) ∨
    (∃ m, process_and_notify env = [OutMsg.error_message m]) := by
  obtain ⟨po, s1, rb, rt, s2, eb⟩ := env
  cases po <;> cases s1 <;> cases rb <;> cases s2 <;> cases eb <;>
    first
      | exact Or.inl rfl
      | exact Or.inr (Or.inl ⟨_, rfl⟩)
      | exact Or.inr (Or.inr ⟨_, rfl⟩)

/-- Claim C3 (counter-evidence): a Debug Capture operation does raise to its
caller.  For the concrete call
`DebugLogger("s1").log_stage("seg_000", "iri_result", {})` run over a
filesystem in which opening the artifact file raises (e.g. `OSError` on a
full disk), the exception propagates out of the operation — `DebugLogger`
contains no exception handling — instead of being logged and swallowed. -/
theorem c3_capture_failure_raises_to_caller :
    runOps failsOpen ((DebugLogger.mk ("s1") true).log_stage ("seg_000") ("iri_result") []) =
      Except.error (FsOp.openTrunc c1Path) := rfl

theorem regPop_not_mem (reg : List (String × LiveState)) (sid : String) (st : LiveState) :
    (sid, st) ∉ regPop reg sid := by
  intro hmem
  have hp := List.of_mem_filter hmem
  simp at hp

theorem runLoop_ready_nil (policy : GroupPolicy) (sid : String) :
    ∀ (script : List RecvEvent) (a : Assembler) (reg : List (String × LiveState)),
      a.ready = [] → (runLoop policy sid a reg script).assembler.ready = [] := by
  intro script
  induction script with
  | nil => intro a reg h; exact h
  | cons ev rest ih =>
    intro a reg h
    cases ev with
    | packet p =>
      simp only [runLoop]
      exact ih _ _ rfl
    | disconnect => exact h
    | decodeError m => exact h

/-- Claim C4: every exception inside the ingestion loop — a malformed packet
that fails to decode just like a clean disconnect — terminates the loop for
that connection, still runs teardown (`pipeline.finalise()` is called), and
removes the session's entry from the active-session registry, so no Session
entry is leaked. -/
theorem c4_teardown_always_runs (policy : GroupPolicy) (sid : String)
    (reg0 : List (String × LiveState)) (script : List RecvEvent)
    (h : (endpointLoop policy sid reg0 script).outcome ≠ LoopEnd.pending) :
    (websocket_endpoint policy sid reg0 script).terminated = true ∧
    TraceEv.finaliseCalled ∈ (websocket_endpoint policy sid reg0 script).trace ∧
    ∀ st, (sid, st) ∉ (websocket_endpoint policy sid reg0 script).registryAfter := by
  simp only [websocket_endpoint]
  cases hout : (endpointLoop policy sid reg0 script).outcome with
  | pending => exact absurd hout h
  | disconnected =>
    refine ⟨rfl, ?_, fun st => regPop_not_mem _ _ _⟩
    simp
  | raised m =>
    refine ⟨rfl, ?_, fun st => regPop_not_mem _ _ _⟩
    simp

/-- Witness for C4 at a concrete input: a session whose first receive raises
a JSON decode error still terminates, calls `finalise`, and leaves no
registry entry. -/
theorem c4_teardown_always_runs_witness :
    (endpointLoop demoPolicy ("s1") [] badScript).outcome ≠ LoopEnd.pending ∧
    ((websocket_endpoint demoPolicy ("s1") [] badScript).terminated = true ∧
     TraceEv.finaliseCalled ∈ (websocket_endpoint demoPolicy ("s1") [] badScript).trace ∧
     ∀ st, (("s1"), st) ∉ (websocket_endpoint demoPolicy ("s1") [] badScript).registryAfter) :=
  ⟨by decide, c4_teardown_always_runs demoPolicy ("s1") [] badScript (by decide)⟩

/-- Claim C5: on the connection-closed signal the ingestion loop flushes the
assembler and spawns a detached Segment Task for every segment that becomes
ready, before teardown (`finalise`): when the assembler's buffered data is
non-empty at disconnect time exactly one final trailing segment is
dispatched (its task-spawn precedes the `finalise` call in the trace), and
when the buffer is empty no extra segment is dispatched. -/
theorem c5_flush_dispatches_trailing_segment (policy : GroupPolicy) (sid : String)
    (reg0 : List (String × LiveState)) (script : List RecvEvent)
    (h : (endpointLoop policy sid reg0 script).outcome = LoopEnd.disconnected) :
    ((endpointLoop policy sid reg0 script).assembler.buf ≠ [] →
      (websocket_endpoint policy sid reg0 script).trace =
        (endpointLoop policy sid reg0 script).trace ++
          [TraceEv.spawnTask (Segment.mk (endpointLoop policy sid reg0 script).assembler.buf),
           TraceEv.finaliseCalled]) ∧
    ((endpointLoop policy sid reg0 script).assembler.buf = [] →
      (websocket_endpoint policy sid reg0 script).trace =
        (endpointLoop policy sid reg0 script).trace ++ [TraceEv.finaliseCalled]) := by
  have hr : (endpointLoop policy sid reg0 script).assembler.ready = [] :=
    runLoop_ready_nil policy sid script (Assembler.mk [] []) _ rfl
  constructor
  · intro hb
    simp only [websocket_endpoint, h]
    simp [Assembler.flush, Assembler.drain, hr, hb]
  · intro hb
    simp only [websocket_endpoint, h]
    simp [Assembler.flush, Assembler.drain, hr, hb]

/-- Witness for C5 at a concrete input: a drive of one packet (shorter than
one segment) followed by disconnect has non-empty buffered data, and the run
dispatches exactly the flushed trailing segment before `finalise`. -/
theorem c5_flush_dispatches_trailing_segment_witness :
    (endpointLoop demoPolicy ("s1") [] demoScript).outcome = LoopEnd.disconnected ∧
    (endpointLoop demoPolicy ("s1") [] demoScript).assembler.buf = [demoPacket] ∧
    (websocket_endpoint demoPolicy ("s1") [] demoScript).trace =
      (endpointLoop demoPolicy ("s1") [] demoScript).trace ++
        [TraceEv.spawnTask (Segment.mk (endpointLoop demoPolicy ("s1") [] demoScript).assembler.buf),
         TraceEv.finaliseCalled] :=
  ⟨rfl, rfl,
   (c5_flush_dispatches_trailing_segment demoPolicy ("s1") [] demoScript rfl).1
     (fun hc => List.cons_ne_nil demoPacket [] hc)⟩

/-- Claim C6: per-session and global roughness/condition averages are the
arithmetic mean over exactly the final-result documents carrying a non-null
value, rounded (2 decimals for IRI, 1 for PCI), and are null — never a
computed zero — when no document carries the value; for the hand-constructed
store of 2 sessions with IRI values [1,2,3] and [4,5,6] the per-session
averages are 2.0 and 5.0 and the global average is 3.5. -/
theorem c6_averages_over_present_values :
    (∀ sid segs, (session_summary_from_segments sid segs).avg_iri =
      (if segs.filterMap docIriValue = [] then none
       else some (pyRound 2 ((segs.filterMap docIriValue).sum /
                              ((segs.filterMap docIriValue).length : ℚ))))) ∧
    (∀ sid segs, (session_summary_from_segments sid segs).avg_pci =
      (if segs.filterMap docPciValue = [] then none
       else some (pyRound 1 ((segs.filterMap docPciValue).sum /
                              ((segs.filterMap docPciValue).length : ℚ))))) ∧
    (list_sessions demoStore []).map (fun s => (s.session_id, s.avg_iri)) =
      [(("s1"), some 2), (("s2"), some 5)] ∧
    (get_global_stats demoStore []).avg_iri = some (7 / 2) := by
  refine ⟨?_, ?_, ?_, ?_⟩
  · intro sid segs
    simp only [session_summary_from_segments]
    cases hc : segs.filterMap docIriValue with
    | nil => simp [hc]
    | cons x xs => simp [hc]
  · intro sid segs
    simp only [session_summary_from_segments]
    cases hc : segs.filterMap docPciValue with
    | nil => simp [hc]
    | cons x xs => simp [hc]
  · have hL : list_sessions demoStore [] =
        [session_summary_from_segments ("s1")
           [demoDoc ("s1") 1, demoDoc ("s1") 2, demoDoc ("s1") 3],
         session_summary_from_segments ("s2")
           [demoDoc ("s2") 4, demoDoc ("s2") 5, demoDoc ("s2") 6]] := rfl
    have e1 : (session_summary_from_segments ("s1")
        [demoDoc ("s1") 1, demoDoc ("s1") 2, demoDoc ("s1") 3]).avg_iri =
        some (pyRound 2 (([(1 : ℚ), 2, 3]).sum / (([(1 : ℚ), 2, 3]).length : ℚ))) := rfl
    have e2 : (session_summary_from_segments ("s2")
        [demoDoc ("s2") 4, demoDoc ("s2") 5, demoDoc ("s2") 6]).avg_iri =
        some (pyRound 2 (([(4 : ℚ), 5, 6]).sum / (([(4 : ℚ), 5, 6]).length : ℚ))) := rfl
    have v1 : (([(1 : ℚ), 2, 3]).sum / (([(1 : ℚ), 2, 3]).length : ℚ)) = 2 := by
      norm_num
    have v2 : (([(4 : ℚ), 5, 6]).sum / (([(4 : ℚ), 5, 6]).length : ℚ)) = 5 := by
      norm_num
    rw [v1, pyRound_exact 2 2 200 (by norm_num)] at e1
    rw [v2, pyRound_exact 2 5 500 (by norm_num)] at e2
    rw [hL]
    simp only [List.map_cons, List.map_nil, e1, e2]
    rfl
  · have hG : (get_global_stats demoStore []).avg_iri =
        some (pyRound 2 (([(1 : ℚ), 2, 3, 4, 5, 6]).sum /
                          (([(1 : ℚ), 2, 3, 4, 5, 6]).length : ℚ))) := rfl
    have v : (([(1 : ℚ), 2, 3, 4, 5, 6]).sum /
               (([(1 : ℚ), 2, 3, 4, 5, 6]).length : ℚ)) = 7 / 2 := by
      norm_num
    rw [hG, v, pyRound_exact 2 (7 / 2) 350 (by norm_num)]

/-- Claim C7 (counter-evidence): with session `s1` both active in the
registry and already represented by a `pipeline_result.json` on disk, the
session listing reports it exactly once, but `get_global_stats` reports
`total_sessions = 2` although only one distinct session exists — the global
statistics count such a session twice. -/
theorem c7_global_stats_double_counts :
    (list_sessions storeS1 [activeS1]).map (fun s => s.session_id) = [("s1")] ∧
    ((load_all_session_results storeS1).map docSessionIdOpt).dedup.length = 1 ∧
    (get_global_stats storeS1 [activeS1]).total_sessions = 2 :=
  ⟨rfl, rfl, rfl⟩

/-- Claim C8: when capture is disabled for the session, `__init__` and every
Debug Capture operation perform zero filesystem writes (no directory
creation, no file writes) and return with no observable side effect. -/
theorem c8_disabled_capture_no_fs_effects (L : DebugLogger) (h : L.enabled = false) :
    L.initEvents = [] ∧
    (∀ segment, L.log_raw_segment segment = []) ∧
    (∀ seg frames, L.log_frames seg frames = []) ∧
    (∀ seg imgs prompt sp, L.log_vlm_input seg imgs prompt sp = []) ∧
    (∀ seg raw parsed t, L.log_vlm_output seg raw parsed t = []) ∧
    (∀ seg stage result, L.log_stage seg stage result = []) ∧
    (∀ seg result, L.log_final_result seg result = []) := by
  refine ⟨?_, ?_, ?_, ?_, ?_, ?_, ?_⟩ <;> intros <;>
    simp [DebugLogger.initEvents, DebugLogger.log_raw_segment, DebugLogger.log_frames,
          DebugLogger.log_vlm_input, DebugLogger.log_vlm_output, DebugLogger.log_stage,
          DebugLogger.log_final_result, h]

/-- Witness for C8 at a concrete input: a disabled logger's `log_stage`
performs no filesystem operation. -/
theorem c8_disabled_capture_no_fs_effects_witness :
    (DebugLogger.mk ("s1") false).enabled = false ∧
    (DebugLogger.mk ("s1") false).log_stage ("seg_000") ("iri_result") [] = [] :=
  ⟨rfl,
   (c8_disabled_capture_no_fs_effects (DebugLogger.mk ("s1") false) rfl).2.2.2.2.2.1
     ("seg_000") ("iri_result") []⟩

/-- Claim C9: the model-output capture writes the raw response text verbatim
(the exact string handed to it) and writes a parsed-output artifact whose
parse-success flag is `false` if and only if the parsed result maps the key
`error` to the string `parse_failed`; any other parsed result — including a
different `error` value — is tagged as a successful parse. -/
theorem c9_verbatim_raw_text_and_parse_flag (L : DebugLogger) (seg : String)
    (raw_response : String) (parsed_result : Doc) (t : ℚ) (h : L.enabled = true) :
    FsOp.writeTxt (L.segDirPath seg ++ "/vlm_raw_response.txt") raw_response ∈
      L.log_vlm_output seg raw_response parsed_result t ∧
    FsOp.writeDoc (L.segDirPath seg ++ "/vlm_parsed.json")
        (JVal.obj
          [("inference_time_s", JVal.num t),
           ("parse_success", JVal.bool (vlmParseSuccess parsed_result)),
           ("parsed_result", JVal.obj parsed_result)]) ∈
      L.log_vlm_output seg raw_response parsed_result t ∧
    (vlmParseSuccess parsed_result = false ↔
      pyGet parsed_result ("error") = some (JVal.str ("parse_failed"))) := by
  refine ⟨?_, ?_, ?_⟩
  · simp [DebugLogger.log_vlm_output, h, DebugLogger.segDirEvents, writeJsonEvents]
  · simp [DebugLogger.log_vlm_output, h, DebugLogger.segDirEvents, writeJsonEvents]
  · unfold vlmParseSuccess
    cases hv : pyGet parsed_result ("error") with
    | none => simp
    | some v => cases v <;> simp [optIsStr]

/-- Witness for C9 at a concrete input: a parsed result whose `error` value
is `vlm_timeout` (not the `parse_failed` sentinel) — the raw text is written
verbatim and the parse is tagged successful. -/
theorem c9_verbatim_raw_text_and_parse_flag_witness :
    (DebugLogger.mk ("s1") true).enabled = true ∧
    FsOp.writeTxt ((DebugLogger.mk ("s1") true).segDirPath ("seg_000") ++ "/vlm_raw_response.txt")
        ("RAW ⟨model output⟩") ∈
      (DebugLogger.mk ("s1") true).log_vlm_output ("seg_000") ("RAW ⟨model output⟩")
        [("error", JVal.str ("vlm_timeout"))] 1 ∧
    (vlmParseSuccess [("error", JVal.str ("vlm_timeout"))] = false ↔
      pyGet [("error", JVal.str ("vlm_timeout"))] ("error") = some (JVal.str ("parse_failed"))) :=
  ⟨rfl,
   (c9_verbatim_raw_text_and_parse_flag (DebugLogger.mk ("s1") true) ("seg_000")
      ("RAW ⟨model output⟩") [("error", JVal.str ("vlm_timeout"))] 1 rfl).1,
   (c9_verbatim_raw_text_and_parse_flag (DebugLogger.mk ("s1") true) ("seg_000")
      ("RAW ⟨model output⟩") [("error", JVal.str ("vlm_timeout"))] 1 rfl).2.2⟩

/-- Claim C10: the `pipeline_result.json` payload contains exactly the input
result's top-level key-value pairs except the single key `frames`: that key
is removed when present and every other pair is preserved unchanged. -/
theorem c10_final_result_strips_only_frames (L : DebugLogger) (seg : String)
    (result : Doc) (h : L.enabled = true) :
    FsOp.writeDoc (L.segDirPath seg ++ "/pipeline_result.json")
        (JVal.obj (finalResultClean result)) ∈ L.log_final_result seg result ∧
    ∀ k v, ((k, v) ∈ finalResultClean result ↔ ((k, v) ∈ result ∧ k ≠ ("frames"))) := by
  constructor
  · simp [DebugLogger.log_final_result, h, DebugLogger.segDirEvents, writeJsonEvents]
  · intro k v
    simp [finalResultClean, List.mem_filter]

/-- Witness for C10 at a concrete input: a result carrying both a `frames`
entry and an ordinary entry — the written payload exists and the `frames`
pair is excluded from it. -/
theorem c10_final_result_strips_only_frames_witness :
    (DebugLogger.mk ("s1") true).enabled = true ∧
    FsOp.writeDoc ((DebugLogger.mk ("s1") true).segDirPath ("seg_000") ++ "/pipeline_result.json")
        (JVal.obj (finalResultClean [("frames", JVal.null), ("iri", JVal.num 3)])) ∈
      (DebugLogger.mk ("s1") true).log_final_result ("seg_000")
        [("frames", JVal.null), ("iri", JVal.num 3)] ∧
    ((("frames"), JVal.null) ∈ finalResultClean [("frames", JVal.null), ("iri", JVal.num 3)] ↔
      ((("frames"), JVal.null) ∈ ([("frames", JVal.null), ("iri", JVal.num 3)] : Doc) ∧
        ("frames") ≠ ("frames"))) :=
  ⟨rfl,
   (c10_final_result_strips_only_frames (DebugLogger.mk ("s1") true) ("seg_000")
      [("frames", JVal.null), ("iri", JVal.num 3)] rfl).1,
   (c10_final_result_strips_only_frames (DebugLogger.mk ("s1") true) ("seg_000")
      [("frames", JVal.null), ("iri", JVal.num 3)] rfl).2 ("frames") JVal.null⟩
